import Mathlib

/-!
Verification of the fitness-club booking core.

Shallow embedding of the scheduling/conflict-resolution services
(`src/services/admin_service.py`, `src/services/member_service.py`) and the
entity models (`src/models/room_booking.py`, `src/models/trainer_availability.py`,
`src/models/personal_training_session.py`, `src/models/class_registration.py`,
`src/models/fitness_class.py`, `src/models/room.py`).

Time model: Python `datetime` values are minutes since a fixed epoch that falls
on a Monday at 00:00, so
  * `.date()`  is `t / 1440` (a day number),
  * `.time()`  is `t % 1440` (minutes into the day),
  * `strftime %A` as a `DayOfWeek` ordinal (0 = Monday) is `t / 1440 % 7`,
  * `t + timedelta(minutes d)` is `t + d`.
Python `date` values are day numbers, `time` values are minutes into a day.
Durations are naturals, so the Python guard `duration_minutes <= 0` becomes
`duration_minutes = 0`.

The SQLAlchemy session is embedded as an explicit record (`DB`) threaded
through every operation.  The session factory disables autoflush
(`sessionmaker(autocommit=False, autoflush=False, ...)`, `src/models/base.py`
line 9), so an uncommitted attribute mutation on an ORM object is NOT seen by
later queries in the same call: queries read the store as of the last commit.
`commit` flushes pending mutations and inserts together and makes them
durable; `rollback` discards them, restoring the state the call started from.
Each service method is a function `DB → args → Result × DB` whose returned
`DB` is the committed (or rolled-back) state.  Error dictionaries become
tagged result constructors carrying the data interpolated into the Python
error strings.
-/

/-- Enum `BookingStatus` from `src/models/room_booking.py`. -/
inductive BookingStatus
  | confirmed
  | pending
  | cancelled
  deriving DecidableEq, Repr

/-- Entity `RoomBooking` (`src/models/room_booking.py`): a room reservation
for a date and a half-open time-of-day interval. -/
structure RoomBooking where
  booking_id : Nat
  room_id : Nat
  booking_date : Nat
  start_time : Nat
  end_time : Nat
  status : BookingStatus
  deriving DecidableEq, Repr

/-- Method `RoomBooking.conflicts_with` (`src/models/room_booking.py`, lines 62-71):
same room, same date, neither cancelled, and the half-open intervals overlap. -/
def RoomBooking.conflicts_with (a b : RoomBooking) : Bool :=
  if a.room_id ≠ b.room_id then false
  else if a.booking_date ≠ b.booking_date then false
  else if a.status = BookingStatus.cancelled ∨ b.status = BookingStatus.cancelled then false
  else decide (a.start_time < b.end_time) && decide (b.start_time < a.end_time)

/-- Entity `TrainerAvailability` (`src/models/trainer_availability.py`):
a recurring weekly window; `day_of_week` is the `DayOfWeek` ordinal
(0 = Monday .. 6 = Sunday). -/
structure TrainerAvailability where
  availability_id : Nat
  trainer_id : Nat
  day_of_week : Nat
  start_time : Nat
  end_time : Nat
  deriving DecidableEq, Repr

/-- Method `TrainerAvailability.overlaps_with` (`src/models/trainer_availability.py`,
lines 60-67): same trainer, same weekday, half-open interval overlap.  The
entity has no cancellation state. -/
def TrainerAvailability.overlaps_with (a b : TrainerAvailability) : Bool :=
  if a.trainer_id ≠ b.trainer_id then false
  else if a.day_of_week ≠ b.day_of_week then false
  else decide (a.start_time < b.end_time) && decide (b.start_time < a.end_time)

/-- Entity `Room` (`src/models/room.py`); only the fields the booking core
reads are embedded. -/
structure Room where
  room_id : Nat
  capacity : Nat
  deriving DecidableEq, Repr

/-- Enum `ClassStatus` from `src/models/fitness_class.py`. -/
inductive ClassStatus
  | scheduled
  | in_progress
  | completed
  | cancelled
  deriving DecidableEq, Repr

/-- Entity `FitnessClass` (`src/models/fitness_class.py`). -/
structure FitnessClass where
  class_id : Nat
  trainer_id : Nat
  room_id : Nat
  scheduled_time : Nat
  duration_minutes : Nat
  capacity : Nat
  status : ClassStatus
  deriving DecidableEq, Repr

/-- Enum `SessionStatus` from `src/models/personal_training_session.py`. -/
inductive SessionStatus
  | scheduled
  | completed
  | cancelled
  | no_show
  deriving DecidableEq, Repr

/-- Entity `PersonalTrainingSession`
(`src/models/personal_training_session.py`). -/
structure PersonalTrainingSession where
  session_id : Nat
  member_id : Nat
  trainer_id : Nat
  room_id : Option Nat
  scheduled_time : Nat
  duration_minutes : Nat
  status : SessionStatus
  deriving DecidableEq, Repr

/-- Enum `RegistrationStatus` from `src/models/class_registration.py`. -/
inductive RegistrationStatus
  | registered
  | attended
  | cancelled
  | no_show
  deriving DecidableEq, Repr

/-- Entity `ClassRegistration` (`src/models/class_registration.py`).  The
table carries `UniqueConstraint(member_id, class_id)`
(`uq_member_class_registration`), enforced at insert time below. -/
structure ClassRegistration where
  registration_id : Nat
  member_id : Nat
  class_id : Nat
  status : RegistrationStatus
  deriving DecidableEq, Repr

/-- The persistent store seen through the shared SQLAlchemy session: every
table the booking core touches, plus the autoincrement counters that assign
primary keys.  Members and trainers are present only as their ids. -/
structure DB where
  rooms : List Room
  trainers : List Nat
  members : List Nat
  bookings : List RoomBooking
  classes : List FitnessClass
  availabilities : List TrainerAvailability
  sessions : List PersonalTrainingSession
  registrations : List ClassRegistration
  next_booking_id : Nat
  next_class_id : Nat
  next_session_id : Nat
  next_registration_id : Nat
  deriving DecidableEq, Repr

/-- Result of `AdminService.book_room`; `conflict` carries the colliding
window interpolated into the Python error string
`Room is already booked from {start} to {end}`. -/
inductive BookRoomResult
  | roomNotFound
  | invalidRange
  | pastDate
  | conflict (cstart cend : Nat)
  | ok (booking_id : Nat)
  deriving DecidableEq, Repr

/-- Service method `AdminService.book_room` (`src/services/admin_service.py`, lines 105-153):
room lookup, `start >= end` guard, past-date guard, then a scan of the
non-cancelled bookings for that room and date with
`RoomBooking.conflicts_with` against the new confirmed booking, rejecting on
the first hit; otherwise the new booking is persisted.  `purpose` and the
booking admin play no role in the logic and are omitted. -/
def book_room (db : DB) (today : Nat) (room_id booking_date start_time end_time : Nat) :
    BookRoomResult × DB :=
  match db.rooms.find? (fun r => decide (r.room_id = room_id)) with
  | none => (BookRoomResult.roomNotFound, db)
  | some _ =>
    if end_time ≤ start_time then (BookRoomResult.invalidRange, db)
    else if booking_date < today then (BookRoomResult.pastDate, db)
    else
      match (db.bookings.filter (fun b =>
          decide (b.room_id = room_id) && decide (b.booking_date = booking_date) &&
          decide (b.status ≠ BookingStatus.cancelled))).find?
          (fun b => RoomBooking.conflicts_with
            ⟨db.next_booking_id, room_id, booking_date, start_time, end_time,
              BookingStatus.confirmed⟩ b) with
      | some b => (BookRoomResult.conflict b.start_time b.end_time, db)
      | none =>
          (BookRoomResult.ok db.next_booking_id,
           { db with
               bookings := db.bookings ++
                 [⟨db.next_booking_id, room_id, booking_date, start_time, end_time,
                   BookingStatus.confirmed⟩],
               next_booking_id := db.next_booking_id + 1 })

/-- Service method `AdminService.is_room_available` (`src/services/admin_service.py`, lines
180-193): true iff no non-cancelled booking of that room and date overlaps the
half-open query window.  Read-only. -/
def is_room_available (db : DB) (room_id booking_date start_time end_time : Nat) : Bool :=
  (db.bookings.filter (fun b =>
      decide (b.room_id = room_id) && decide (b.booking_date = booking_date) &&
      decide (b.status ≠ BookingStatus.cancelled))).all
    (fun b => !(decide (start_time < b.end_time) && decide (b.start_time < end_time)))

/-- Result of `AdminService.cancel_room_booking`. -/
inductive CancelBookingResult
  | notFound
  | ok
  deriving DecidableEq, Repr

/-- Set the status of the first booking with the given primary key to
cancelled, as the ORM mutation `booking.status = CANCELLED` does after a
primary-key lookup. -/
def cancelFirstBooking : List RoomBooking → Nat → List RoomBooking
  | [], _ => []
  | b :: bs, bid =>
      if b.booking_id = bid then { b with status := BookingStatus.cancelled } :: bs
      else b :: cancelFirstBooking bs bid

/-- Service method `AdminService.cancel_room_booking` (`src/services/admin_service.py`, lines
166-178): looks the booking up by id and unconditionally sets its status to
cancelled; there is no already-cancelled guard. -/
def cancel_room_booking (db : DB) (booking_id : Nat) : CancelBookingResult × DB :=
  match db.bookings.find? (fun b => decide (b.booking_id = booking_id)) with
  | none => (CancelBookingResult.notFound, db)
  | some _ =>
      (CancelBookingResult.ok,
       { db with bookings := cancelFirstBooking db.bookings booking_id })

/-- Result of `AdminService.create_class`. -/
inductive CreateClassResult
  | trainerNotFound
  | roomNotFound
  | capacityExceeded (cap roomCap : Nat)
  | invalidDuration
  | pastSchedule
  | roomConflict
  | ok (class_id booking_id : Nat)
  deriving DecidableEq, Repr

/-- Service method `AdminService.create_class` (`src/services/admin_service.py`, lines
197-269): validates trainer, room, capacity (defaulting to the room's),
positive duration and `scheduled_time < now`; then derives the booking date
and the start/end times of day (the end wrapping through `.time()` when the
class crosses midnight), checks `is_room_available`, and atomically persists
the class together with a linked confirmed `RoomBooking`. -/
def create_class (db : DB) (now : Nat) (trainer_id room_id scheduled_time duration_minutes : Nat)
    (capacity : Option Nat) : CreateClassResult × DB :=
  if ¬ db.trainers.contains trainer_id then (CreateClassResult.trainerNotFound, db)
  else
    match db.rooms.find? (fun r => decide (r.room_id = room_id)) with
    | none => (CreateClassResult.roomNotFound, db)
    | some room =>
      if room.capacity < capacity.getD room.capacity then
        (CreateClassResult.capacityExceeded (capacity.getD room.capacity) room.capacity, db)
      else if duration_minutes = 0 then (CreateClassResult.invalidDuration, db)
      else if scheduled_time < now then (CreateClassResult.pastSchedule, db)
      else if ¬ is_room_available db room_id (scheduled_time / 1440) (scheduled_time % 1440)
          ((scheduled_time + duration_minutes) % 1440) then
        (CreateClassResult.roomConflict, db)
      else
        (CreateClassResult.ok db.next_class_id db.next_booking_id,
         { db with
             classes := db.classes ++
               [⟨db.next_class_id, trainer_id, room_id, scheduled_time,
                 duration_minutes, capacity.getD room.capacity, ClassStatus.scheduled⟩],
             bookings := db.bookings ++
               [⟨db.next_booking_id, room_id, scheduled_time / 1440, scheduled_time % 1440,
                 (scheduled_time + duration_minutes) % 1440, BookingStatus.confirmed⟩],
             next_class_id := db.next_class_id + 1,
             next_booking_id := db.next_booking_id + 1 })

/-- Result of `AdminService.cancel_class`. -/
inductive CancelClassResult
  | notFound
  | ok
  deriving DecidableEq, Repr

/-- Set the status of the first class with the given primary key to
cancelled. -/
def cancelFirstClass : List FitnessClass → Nat → List FitnessClass
  | [], _ => []
  | c :: cs, cid =>
      if c.class_id = cid then { c with status := ClassStatus.cancelled } :: cs
      else c :: cancelFirstClass cs cid

/-- Service method `AdminService.cancel_class` (`src/services/admin_service.py`, lines
318-330): sets the class status to cancelled; the linked room booking is not
touched. -/
def cancel_class (db : DB) (class_id : Nat) : CancelClassResult × DB :=
  match db.classes.find? (fun c => decide (c.class_id = class_id)) with
  | none => (CancelClassResult.notFound, db)
  | some _ =>
      (CancelClassResult.ok, { db with classes := cancelFirstClass db.classes class_id })

/-- Result of `MemberService.book_personal_training_session`. -/
inductive PTBookResult
  | memberNotFound
  | trainerNotFound
  | pastSchedule
  | trainerUnavailable
  | trainerConflict
  | memberConflict
  | roomConflict
  | ok (session_id : Nat)
  deriving DecidableEq, Repr

/-- True exactly on the success constructor. -/
def PTBookResult.isOk : PTBookResult → Bool
  | PTBookResult.ok _ => true
  | _ => false

/-- Service method `MemberService.book_personal_training_session`
(`src/services/member_service.py`, lines 343-448): member and trainer lookup;
`scheduled_time <= now` guard; the trainer-availability query demands a window
of the session's weekday with `window.start ≤ start` and
`window.end ≥ end.time()`; the trainer- and member-conflict queries look for a
scheduled session whose start lies in `[scheduled_time, end)`; with a room
attached, a confirmed booking of that room and date overlapping the half-open
window rejects; otherwise a scheduled session is persisted.  Python's truthy
`if room_id:` becomes a match on the optional room (ids are positive). -/
def book_personal_training_session (db : DB) (now : Nat)
    (member_id trainer_id scheduled_time duration_minutes : Nat) (room_id : Option Nat) :
    PTBookResult × DB :=
  if ¬ db.members.contains member_id then (PTBookResult.memberNotFound, db)
  else if ¬ db.trainers.contains trainer_id then (PTBookResult.trainerNotFound, db)
  else if scheduled_time ≤ now then (PTBookResult.pastSchedule, db)
  else if ¬ db.availabilities.any (fun a =>
      decide (a.trainer_id = trainer_id) &&
      decide (a.day_of_week = scheduled_time / 1440 % 7) &&
      decide (a.start_time ≤ scheduled_time % 1440) &&
      decide ((scheduled_time + duration_minutes) % 1440 ≤ a.end_time)) then
    (PTBookResult.trainerUnavailable, db)
  else if db.sessions.any (fun s =>
      decide (s.trainer_id = trainer_id) && decide (s.status = SessionStatus.scheduled) &&
      decide (s.scheduled_time < scheduled_time + duration_minutes) &&
      decide (scheduled_time ≤ s.scheduled_time)) then
    (PTBookResult.trainerConflict, db)
  else if db.sessions.any (fun s =>
      decide (s.member_id = member_id) && decide (s.status = SessionStatus.scheduled) &&
      decide (s.scheduled_time < scheduled_time + duration_minutes) &&
      decide (scheduled_time ≤ s.scheduled_time)) then
    (PTBookResult.memberConflict, db)
  else if (match room_id with
      | some r => db.bookings.any (fun b =>
          decide (b.room_id = r) && decide (b.booking_date = scheduled_time / 1440) &&
          decide (b.status = BookingStatus.confirmed) &&
          decide (b.start_time < (scheduled_time + duration_minutes) % 1440) &&
          decide (scheduled_time % 1440 < b.end_time))
      | none => false) then
    (PTBookResult.roomConflict, db)
  else
    (PTBookResult.ok db.next_session_id,
     { db with
         sessions := db.sessions ++
           [⟨db.next_session_id, member_id, trainer_id, room_id, scheduled_time,
             duration_minutes, SessionStatus.scheduled⟩],
         next_session_id := db.next_session_id + 1 })

/-- Result of `MemberService.cancel_pt_session`. -/
inductive CancelSessionResult
  | notFound
  | alreadyCancelled
  | alreadyCompleted
  | pastSession
  | ok
  deriving DecidableEq, Repr

/-- Set the status of the first session matching the id and owning member to
cancelled. -/
def cancelFirstSession : List PersonalTrainingSession → Nat → Nat →
    List PersonalTrainingSession
  | [], _, _ => []
  | s :: ss, sid, mid =>
      if s.session_id = sid ∧ s.member_id = mid then
        { s with status := SessionStatus.cancelled } :: ss
      else s :: cancelFirstSession ss sid mid

/-- Service method `MemberService.cancel_pt_session` (`src/services/member_service.py`, lines
461-486): lookup by session id and member, then already-cancelled, completed
and past-session guards before the status flip. -/
def cancel_pt_session (db : DB) (now : Nat) (member_id session_id : Nat) :
    CancelSessionResult × DB :=
  match db.sessions.find? (fun s =>
      decide (s.session_id = session_id) && decide (s.member_id = member_id)) with
  | none => (CancelSessionResult.notFound, db)
  | some s =>
    if s.status = SessionStatus.cancelled then (CancelSessionResult.alreadyCancelled, db)
    else if s.status = SessionStatus.completed then (CancelSessionResult.alreadyCompleted, db)
    else if s.scheduled_time ≤ now then (CancelSessionResult.pastSession, db)
    else
      (CancelSessionResult.ok,
       { db with sessions := cancelFirstSession db.sessions session_id member_id })

/-- Result of `MemberService.reschedule_pt_session`; `bookFailed` wraps the
re-booking failure dictionary that the Python code returns as-is. -/
inductive RescheduleResult
  | notFound
  | notScheduled
  | bookFailed (e : PTBookResult)
  | ok (new_session_id : Nat)
  deriving DecidableEq, Repr

/-- Service method `MemberService.reschedule_pt_session` (`src/services/member_service.py`,
lines 488-519): after the lookup and the scheduled-only guard it sets the old
session's status to cancelled — an uncommitted ORM mutation which, because the
session factory disables autoflush (`src/models/base.py` line 9), the conflict
queries inside the nested `book_personal_training_session` do NOT see: they
run against the store as of the last commit, where the old session is still
scheduled (so the old session itself can trip the trainer/member
start-containment checks).  On success the commit inside the nested booking
flushes the pending cancellation together with the insert, so both become
durable; on failure the `session.rollback()` in the else-branch discards the
uncommitted cancellation, restoring the state the call started from. -/
def reschedule_pt_session (db : DB) (now : Nat) (member_id session_id new_time : Nat) :
    RescheduleResult × DB :=
  match db.sessions.find? (fun s =>
      decide (s.session_id = session_id) && decide (s.member_id = member_id)) with
  | none => (RescheduleResult.notFound, db)
  | some s =>
    if s.status ≠ SessionStatus.scheduled then (RescheduleResult.notScheduled, db)
    else
      match book_personal_training_session db now member_id s.trainer_id new_time
          s.duration_minutes s.room_id with
      | (PTBookResult.ok sid, db2) =>
          (RescheduleResult.ok sid,
           { db2 with sessions := cancelFirstSession db2.sessions session_id member_id })
      | (e, _) => (RescheduleResult.bookFailed e, db)

/-- Result of `MemberService.register_for_class`.  The Python code returns the
same error string `You are already registered for this class` both from the
status-filtered duplicate check and from the `IntegrityError` handler around
the insert, so both map to `alreadyRegistered`. -/
inductive RegisterResult
  | memberNotFound
  | classNotFound
  | notAvailable
  | pastClass
  | alreadyRegistered
  | classFull
  | sessionConflict
  | ok (registration_id : Nat)
  deriving DecidableEq, Repr

/-- Service method `MemberService.register_for_class` (`src/services/member_service.py`,
lines 534-615): member and class lookup; scheduled-status and future guards;
the duplicate check counts only REGISTERED/ATTENDED registrations; the
capacity count only REGISTERED ones; the PT-session conflict looks for a
scheduled session of the member starting in `[class start, class end)`; the
final insert hits the database constraint
`uq_member_class_registration (member_id, class_id)` — which ignores status —
raising `IntegrityError`, reported as already-registered, whenever any row for
the pair exists. -/
def register_for_class (db : DB) (now : Nat) (member_id class_id : Nat) :
    RegisterResult × DB :=
  if ¬ db.members.contains member_id then (RegisterResult.memberNotFound, db)
  else
    match db.classes.find? (fun c => decide (c.class_id = class_id)) with
    | none => (RegisterResult.classNotFound, db)
    | some c =>
      if c.status ≠ ClassStatus.scheduled then (RegisterResult.notAvailable, db)
      else if c.scheduled_time ≤ now then (RegisterResult.pastClass, db)
      else if db.registrations.any (fun r =>
          decide (r.member_id = member_id) && decide (r.class_id = class_id) &&
          (decide (r.status = RegistrationStatus.registered) ||
           decide (r.status = RegistrationStatus.attended))) then
        (RegisterResult.alreadyRegistered, db)
      else if c.capacity ≤ (db.registrations.filter (fun r =>
          decide (r.class_id = class_id) &&
          decide (r.status = RegistrationStatus.registered))).length then
        (RegisterResult.classFull, db)
      else if db.sessions.any (fun s =>
          decide (s.member_id = member_id) && decide (s.status = SessionStatus.scheduled) &&
          decide (s.scheduled_time < c.scheduled_time + c.duration_minutes) &&
          decide (c.scheduled_time ≤ s.scheduled_time)) then
        (RegisterResult.sessionConflict, db)
      else if db.registrations.any (fun r =>
          decide (r.member_id = member_id) && decide (r.class_id = class_id)) then
        (RegisterResult.alreadyRegistered, db)
      else
        (RegisterResult.ok db.next_registration_id,
         { db with
             registrations := db.registrations ++
               [⟨db.next_registration_id, member_id, class_id,
                 RegistrationStatus.registered⟩],
             next_registration_id := db.next_registration_id + 1 })

/-- Result of `MemberService.cancel_class_registration`.  `classMissing` marks
the state in which the registration's class row is absent, where the Python
attribute access would raise. -/
inductive CancelRegResult
  | notFound
  | alreadyCancelled
  | attendedClass
  | classStarted
  | classMissing
  | ok
  deriving DecidableEq, Repr

/-- Set the status of the first registration matching the id and owning member
to cancelled. -/
def cancelFirstRegistration : List ClassRegistration → Nat → Nat → List ClassRegistration
  | [], _, _ => []
  | r :: rs, rid, mid =>
      if r.registration_id = rid ∧ r.member_id = mid then
        { r with status := RegistrationStatus.cancelled } :: rs
      else r :: cancelFirstRegistration rs rid mid

/-- Service method `MemberService.cancel_class_registration` (`src/services/member_service.py`,
lines 629-656): lookup by registration id and member, then already-cancelled
and attended guards, then the class-started guard via the linked class, before
the status flip. -/
def cancel_class_registration (db : DB) (now : Nat) (member_id registration_id : Nat) :
    CancelRegResult × DB :=
  match db.registrations.find? (fun r =>
      decide (r.registration_id = registration_id) && decide (r.member_id = member_id)) with
  | none => (CancelRegResult.notFound, db)
  | some r =>
    if r.status = RegistrationStatus.cancelled then (CancelRegResult.alreadyCancelled, db)
    else if r.status = RegistrationStatus.attended then (CancelRegResult.attendedClass, db)
    else
      match db.classes.find? (fun c => decide (c.class_id = r.class_id)) with
      | none => (CancelRegResult.classMissing, db)
      | some c =>
        if c.scheduled_time ≤ now then (CancelRegResult.classStarted, db)
        else
          (CancelRegResult.ok,
           { db with registrations :=
               cancelFirstRegistration db.registrations registration_id member_id })

/-- The operations of claim C1 that touch the room-booking table, each
carrying the clock value Python reads from `date.today()` / `datetime.now()`
at that call. -/
inductive AdminOp
  | bookRoom (today room_id booking_date start_time end_time : Nat)
  | createClass (now trainer_id room_id scheduled_time duration_minutes : Nat)
      (capacity : Option Nat)
  | cancelBooking (booking_id : Nat)
  | cancelClass (class_id : Nat)
  deriving DecidableEq, Repr

/-- Apply one admin operation, keeping only the resulting state. -/
def applyAdminOp (db : DB) : AdminOp → DB
  | AdminOp.bookRoom today r d s e => (book_room db today r d s e).2
  | AdminOp.createClass now t r sch dur cap => (create_class db now t r sch dur cap).2
  | AdminOp.cancelBooking bid => (cancel_room_booking db bid).2
  | AdminOp.cancelClass cid => (cancel_class db cid).2

/-- Run a sequence of admin operations. -/
def runAdminOps (db : DB) : List AdminOp → DB
  | [] => db
  | op :: ops => runAdminOps (applyAdminOp db op) ops

/-- Two bookings are compatible when, if they share room and date and neither
is cancelled, their half-open intervals do not overlap. -/
def bookingsCompatible (a b : RoomBooking) : Prop :=
  a.room_id = b.room_id → a.booking_date = b.booking_date →
  a.status ≠ BookingStatus.cancelled → b.status ≠ BookingStatus.cancelled →
  ¬(a.start_time < b.end_time ∧ b.start_time < a.end_time)

instance : DecidableRel bookingsCompatible := fun a b => by
  unfold bookingsCompatible; infer_instance

/-- The no-double-booking invariant: every two bookings in the table are
compatible. -/
def noDoubleBooking (db : DB) : Prop := db.bookings.Pairwise bookingsCompatible

/-- Studio A scenario state: room 1 (capacity 30) with one confirmed booking
09:00–10:00 (540–600) on day 0, as left by the first successful `book_room`. -/
def dbStudio : DB :=
  ⟨[⟨1, 30⟩], [], [], [⟨0, 1, 0, 540, 600, BookingStatus.confirmed⟩], [], [], [], [],
   1, 0, 0, 0⟩

/-- State for C2: member 1, a scheduled future class 1 with free capacity, and
one cancelled registration of member 1 for class 1 retained by soft delete. -/
def dbRereg : DB :=
  ⟨[⟨1, 30⟩], [1], [1], [], [⟨1, 1, 1, 10000, 60, 10, ClassStatus.scheduled⟩], [], [],
   [⟨1, 1, 1, RegistrationStatus.cancelled⟩], 0, 2, 0, 2⟩

/-- State for C3: one already-cancelled room booking, one already-cancelled PT
session of member 1, and one already-cancelled registration of member 1. -/
def dbCancelled : DB :=
  ⟨[⟨1, 30⟩], [1], [1], [⟨1, 1, 0, 540, 600, BookingStatus.cancelled⟩],
   [⟨1, 1, 1, 10000, 60, 10, ClassStatus.scheduled⟩], [],
   [⟨1, 1, 1, none, 9000, 60, SessionStatus.cancelled⟩],
   [⟨1, 1, 1, RegistrationStatus.cancelled⟩], 2, 2, 2, 2⟩

/-- State for C5: trainer 1 has a Sunday window 05:00–10:00 (300–600) and an
existing scheduled session of member 2 at minute 9000 lasting 60 minutes;
member 1 then books at minute 9030, whose window overlaps that session even
though its start does not lie inside the new window. -/
def dbStartOnly : DB :=
  ⟨[], [1], [1], [], [], [⟨1, 1, 6, 300, 600⟩],
   [⟨1, 2, 1, none, 9000, 60, SessionStatus.scheduled⟩], [], 0, 0, 2, 0⟩

/-- State for C6: trainer 1 is available Monday 09:00–12:00 (540–720, weekday
ordinal 0); minute 10770 is a Monday 11:30. -/
def dbMonday : DB :=
  ⟨[], [1], [1], [], [], [⟨1, 1, 0, 540, 720⟩], [], [], 0, 0, 1, 0⟩

/-- State for C7: member 1 owns scheduled session 1 (trainer 1, minute 100,
60 minutes), and trainer 1 is available all Monday (window 0–1400).
Rescheduling to a past time fails the nested booking's temporal guard;
rescheduling to an overlapping time fails its trainer-conflict check, because
with autoflush disabled the old session is still seen as scheduled. -/
def dbResched : DB :=
  ⟨[], [1], [1], [], [], [⟨1, 1, 0, 0, 1400⟩],
   [⟨1, 1, 1, none, 100, 60, SessionStatus.scheduled⟩], [], 0, 0, 2, 0⟩

/-- State for C8 and C9: trainer 1 and room 1 (capacity 10) with no bookings. -/
def dbFresh : DB :=
  ⟨[⟨1, 10⟩], [1], [], [], [], [], [], [], 0, 0, 0, 0⟩

/-- Characterisation of `RoomBooking.conflicts_with` as a proposition. -/
theorem RoomBooking.conflicts_with_iff (a b : RoomBooking) :
    a.conflicts_with b = true ↔
      (a.room_id = b.room_id ∧ a.booking_date = b.booking_date ∧
       a.status ≠ BookingStatus.cancelled ∧ b.status ≠ BookingStatus.cancelled ∧
       a.start_time < b.end_time ∧ b.start_time < a.end_time) := by
  unfold RoomBooking.conflicts_with
  by_cases h1 : a.room_id = b.room_id <;>
    by_cases h2 : a.booking_date = b.booking_date <;>
      by_cases h3 : a.status = BookingStatus.cancelled <;>
        by_cases h4 : b.status = BookingStatus.cancelled <;>
          simp [h1, h2, h3, h4]

/-- Characterisation of `TrainerAvailability.overlaps_with` as a proposition. -/
theorem TrainerAvailability.overlaps_with_iff (a b : TrainerAvailability) :
    a.overlaps_with b = true ↔
      (a.trainer_id = b.trainer_id ∧ a.day_of_week = b.day_of_week ∧
       a.start_time < b.end_time ∧ b.start_time < a.end_time) := by
  unfold TrainerAvailability.overlaps_with
  by_cases h1 : a.trainer_id = b.trainer_id <;>
    by_cases h2 : a.day_of_week = b.day_of_week <;>
      simp [h1, h2]

/-- C4: Time-Interval Conflict Checker contract.  `RoomBooking.conflicts_with`
returns true iff the room ids match, the dates match, neither booking is
cancelled, and `start_a < end_b ∧ start_b < end_a`; consequently intervals that
merely touch at an endpoint never conflict.  `TrainerAvailability.overlaps_with`
is the same predicate with (trainer, weekday) as resource key; the entity has
no cancellation flag, so that clause is vacuous for it.  Both are pure
functions of their arguments (no side effects by construction of the
embedding; the Python bodies only read attributes). -/
theorem C4_conflict_checker_contract :
    (∀ a b : RoomBooking, a.conflicts_with b = true ↔
      (a.room_id = b.room_id ∧ a.booking_date = b.booking_date ∧
       a.status ≠ BookingStatus.cancelled ∧ b.status ≠ BookingStatus.cancelled ∧
       a.start_time < b.end_time ∧ b.start_time < a.end_time)) ∧
    (∀ a b : RoomBooking, a.end_time = b.start_time → a.conflicts_with b = false) ∧
    (∀ a b : TrainerAvailability, a.overlaps_with b = true ↔
      (a.trainer_id = b.trainer_id ∧ a.day_of_week = b.day_of_week ∧
       a.start_time < b.end_time ∧ b.start_time < a.end_time)) ∧
    (∀ a b : TrainerAvailability, a.end_time = b.start_time → a.overlaps_with b = false) := by
  refine ⟨RoomBooking.conflicts_with_iff, ?_, TrainerAvailability.overlaps_with_iff, ?_⟩
  · intro a b h
    rw [← Bool.not_eq_true]
    intro hc
    have := (RoomBooking.conflicts_with_iff a b).mp hc
    omega
  · intro a b h
    rw [← Bool.not_eq_true]
    intro hc
    have := (TrainerAvailability.overlaps_with_iff a b).mp hc
    omega

/-- C4 witness: two bookings touching at 10:00 (600 minutes) do not conflict,
by the touching-endpoint clause of the contract at a concrete input. -/
theorem C4_conflict_checker_contract_witness :
    RoomBooking.conflicts_with ⟨1, 1, 0, 540, 600, BookingStatus.confirmed⟩
      ⟨2, 1, 0, 600, 660, BookingStatus.confirmed⟩ = false :=
  C4_conflict_checker_contract.2.1
    ⟨1, 1, 0, 540, 600, BookingStatus.confirmed⟩
    ⟨2, 1, 0, 600, 660, BookingStatus.confirmed⟩ rfl

/-- C10: both conflict predicates are symmetric in their two records. -/
theorem C10_conflict_predicates_symmetric :
    (∀ a b : RoomBooking, a.conflicts_with b = b.conflicts_with a) ∧
    (∀ a b : TrainerAvailability, a.overlaps_with b = b.overlaps_with a) := by
  constructor
  · intro a b
    rw [Bool.eq_iff_iff, RoomBooking.conflicts_with_iff, RoomBooking.conflicts_with_iff]
    constructor <;> rintro ⟨h1, h2, h3, h4, h5, h6⟩ <;>
      exact ⟨h1.symm, h2.symm, h4, h3, h6, h5⟩
  · intro a b
    rw [Bool.eq_iff_iff, TrainerAvailability.overlaps_with_iff,
      TrainerAvailability.overlaps_with_iff]
    constructor <;> rintro ⟨h1, h2, h3, h4⟩ <;> exact ⟨h1.symm, h2.symm, h4, h3⟩

/-- Appending a booking compatible with every current booking preserves
pairwise compatibility. -/
theorem pairwise_append_booking {l : List RoomBooking} {x : RoomBooking}
    (hl : l.Pairwise bookingsCompatible) (hx : ∀ b ∈ l, bookingsCompatible b x) :
    (l ++ [x]).Pairwise bookingsCompatible := by
  rw [List.pairwise_append]
  refine ⟨hl, by simp, ?_⟩
  intro a ha y hy
  rw [List.mem_singleton] at hy
  subst hy
  exact hx a ha

/-- Elements of `cancelFirstBooking` are original bookings or a cancelled copy
of one. -/
theorem mem_cancelFirstBooking {l : List RoomBooking} {bid : Nat} {x : RoomBooking}
    (hx : x ∈ cancelFirstBooking l bid) :
    x ∈ l ∨ ∃ y ∈ l, x = { y with status := BookingStatus.cancelled } := by
  induction l with
  | nil => simp [cancelFirstBooking] at hx
  | cons b bs ih =>
    unfold cancelFirstBooking at hx
    by_cases hb : b.booking_id = bid
    · rw [if_pos hb] at hx
      rcases List.mem_cons.mp hx with h | h
      · exact Or.inr ⟨b, List.mem_cons_self b bs, h⟩
      · exact Or.inl (List.mem_cons_of_mem _ h)
    · rw [if_neg hb] at hx
      rcases List.mem_cons.mp hx with h | h
      · exact Or.inl (h ▸ List.mem_cons_self b bs)
      · rcases ih h with h' | ⟨y, hy, hxy⟩
        · exact Or.inl (List.mem_cons_of_mem _ h')
        · exact Or.inr ⟨y, List.mem_cons_of_mem _ hy, hxy⟩

/-- Cancelling a booking preserves pairwise compatibility: a cancelled record
is vacuously compatible with everything. -/
theorem cancelFirstBooking_pairwise {l : List RoomBooking} {bid : Nat}
    (h : l.Pairwise bookingsCompatible) :
    (cancelFirstBooking l bid).Pairwise bookingsCompatible := by
  induction l with
  | nil => simp only [cancelFirstBooking]; exact h
  | cons b bs ih =>
    rw [List.pairwise_cons] at h
    unfold cancelFirstBooking
    by_cases hb : b.booking_id = bid
    · rw [if_pos hb, List.pairwise_cons]
      refine ⟨?_, h.2⟩
      intro x _ _ _ hst _
      exact absurd rfl hst
    · rw [if_neg hb, List.pairwise_cons]
      refine ⟨?_, ih h.2⟩
      intro x hx
      rcases mem_cancelFirstBooking hx with h' | ⟨y, hy, hxy⟩
      · exact h.1 x h'
      · subst hxy
        intro _ _ _ hsy
        exact absurd rfl hsy

/-- Lemma: `book_room` preserves the no-double-booking invariant. -/
theorem book_room_preserves (db : DB) (today r d s e : Nat) (h : noDoubleBooking db) :
    noDoubleBooking (book_room db today r d s e).2 := by
  unfold book_room
  split
  · exact h
  · split
    · exact h
    · split
      · exact h
      · split
        · exact h
        · rename_i hfind
          show (db.bookings ++
            [(⟨db.next_booking_id, r, d, s, e, BookingStatus.confirmed⟩ : RoomBooking)]).Pairwise
              bookingsCompatible
          refine pairwise_append_booking h ?_
          intro a ha hroom hdate hast _
          rintro ⟨g1, g2⟩
          have hmem : a ∈ db.bookings.filter (fun b =>
              decide (b.room_id = r) && decide (b.booking_date = d) &&
              decide (b.status ≠ BookingStatus.cancelled)) :=
            List.mem_filter.mpr ⟨ha, by simp [hroom, hdate, hast]⟩
          refine List.find?_eq_none.mp hfind a hmem ?_
          exact (RoomBooking.conflicts_with_iff _ a).mpr
            ⟨hroom.symm, hdate.symm, by simp, hast, g2, g1⟩

/-- Lemma: `create_class` preserves the no-double-booking invariant: the linked
booking is inserted only when `is_room_available` accepted its window. -/
theorem create_class_preserves (db : DB) (now t r sch dur : Nat) (cap : Option Nat)
    (h : noDoubleBooking db) : noDoubleBooking (create_class db now t r sch dur cap).2 := by
  unfold create_class
  split
  · exact h
  · split
    · exact h
    · split
      · exact h
      · split
        · exact h
        · split
          · exact h
          · split
            · exact h
            · rename_i havail
              rw [not_not] at havail
              show (db.bookings ++
                [(⟨db.next_booking_id, r, sch / 1440, sch % 1440, (sch + dur) % 1440,
                  BookingStatus.confirmed⟩ : RoomBooking)]).Pairwise bookingsCompatible
              refine pairwise_append_booking h ?_
              intro a ha hroom hdate hast _
              rintro ⟨g1, g2⟩
              dsimp only at g1 g2
              have hmem : a ∈ db.bookings.filter (fun b =>
                  decide (b.room_id = r) && decide (b.booking_date = sch / 1440) &&
                  decide (b.status ≠ BookingStatus.cancelled)) :=
                List.mem_filter.mpr ⟨ha, by simp [hroom, hdate, hast]⟩
              have := List.all_eq_true.mp havail a hmem
              simp only [Bool.not_eq_true', Bool.and_eq_false_iff, decide_eq_false_iff_not,
                not_lt] at this
              rcases this with h' | h' <;> omega

/-- Lemma: `cancel_room_booking` preserves the no-double-booking invariant. -/
theorem cancel_room_booking_preserves (db : DB) (bid : Nat) (h : noDoubleBooking db) :
    noDoubleBooking (cancel_room_booking db bid).2 := by
  unfold cancel_room_booking
  split
  · exact h
  · exact cancelFirstBooking_pairwise h

/-- Lemma: `cancel_class` leaves the booking table untouched. -/
theorem cancel_class_preserves (db : DB) (cid : Nat) (h : noDoubleBooking db) :
    noDoubleBooking (cancel_class db cid).2 := by
  unfold cancel_class
  split
  · exact h
  · exact h

/-- Every admin operation preserves the no-double-booking invariant. -/
theorem applyAdminOp_preserves (db : DB) (op : AdminOp) (h : noDoubleBooking db) :
    noDoubleBooking (applyAdminOp db op) := by
  cases op with
  | bookRoom today r d s e => exact book_room_preserves db today r d s e h
  | createClass now t r sch dur cap => exact create_class_preserves db now t r sch dur cap h
  | cancelBooking bid => exact cancel_room_booking_preserves db bid h
  | cancelClass cid => exact cancel_class_preserves db cid h

/-- Sequences of admin operations preserve the no-double-booking invariant. -/
theorem runAdminOps_preserves (ops : List AdminOp) (db : DB) (h : noDoubleBooking db) :
    noDoubleBooking (runAdminOps db ops) := by
  induction ops generalizing db with
  | nil => exact h
  | cons op ops ih => exact ih _ (applyAdminOp_preserves db op h)

/-- Lemma: `book_room` rejects an overlapping request with a conflict naming a
colliding window (the one the scan found) and leaves the state unchanged. -/
theorem book_room_rejects_overlap (db : DB) (today r d s e : Nat)
    (hroom : ∃ rm, db.rooms.find? (fun x => decide (x.room_id = r)) = some rm)
    (hse : s < e) (hd : today ≤ d)
    (hex : ∃ b ∈ db.bookings, b.room_id = r ∧ b.booking_date = d ∧
      b.status ≠ BookingStatus.cancelled ∧ s < b.end_time ∧ b.start_time < e) :
    ∃ c ∈ db.bookings, c.room_id = r ∧ c.booking_date = d ∧
      c.status ≠ BookingStatus.cancelled ∧ s < c.end_time ∧ c.start_time < e ∧
      book_room db today r d s e = (BookRoomResult.conflict c.start_time c.end_time, db) := by
  obtain ⟨rm, hrm⟩ := hroom
  obtain ⟨b, hbmem, hb1, hb2, hb3, hb4, hb5⟩ := hex
  have h1 : ¬ (e ≤ s) := by omega
  have h2 : ¬ (d < today) := by omega
  have hbf : b ∈ db.bookings.filter (fun x =>
      decide (x.room_id = r) && decide (x.booking_date = d) &&
      decide (x.status ≠ BookingStatus.cancelled)) :=
    List.mem_filter.mpr ⟨hbmem, by simp [hb1, hb2, hb3]⟩
  have hconf : RoomBooking.conflicts_with
      ⟨db.next_booking_id, r, d, s, e, BookingStatus.confirmed⟩ b = true :=
    (RoomBooking.conflicts_with_iff _ _).mpr ⟨hb1.symm, hb2.symm, by simp, hb3, hb4, hb5⟩
  have hsome : ((db.bookings.filter (fun x =>
      decide (x.room_id = r) && decide (x.booking_date = d) &&
      decide (x.status ≠ BookingStatus.cancelled))).find?
      (fun x => RoomBooking.conflicts_with
        ⟨db.next_booking_id, r, d, s, e, BookingStatus.confirmed⟩ x)).isSome := by
    rw [List.find?_isSome]
    exact ⟨b, hbf, hconf⟩
  obtain ⟨c, hc⟩ := Option.isSome_iff_exists.mp hsome
  have hcmem := List.mem_of_find?_eq_some hc
  have hcpred := List.find?_some hc
  rw [List.mem_filter] at hcmem
  have hcp := (RoomBooking.conflicts_with_iff _ _).mp hcpred
  refine ⟨c, hcmem.1, hcp.1.symm, hcp.2.1.symm, hcp.2.2.2.1, hcp.2.2.2.2.1,
    hcp.2.2.2.2.2, ?_⟩
  simp only [book_room, hrm, if_neg h1, if_neg h2, hc]

/-- Lemma: `book_room` accepts a request that overlaps no existing non-cancelled
booking of the room and date (touching an endpoint included) and persists it. -/
theorem book_room_accepts (db : DB) (today r d s e : Nat)
    (hroom : ∃ rm, db.rooms.find? (fun x => decide (x.room_id = r)) = some rm)
    (hse : s < e) (hd : today ≤ d)
    (hno : ∀ b ∈ db.bookings, b.room_id = r → b.booking_date = d →
      b.status ≠ BookingStatus.cancelled → ¬(s < b.end_time ∧ b.start_time < e)) :
    book_room db today r d s e =
      (BookRoomResult.ok db.next_booking_id,
       { db with
           bookings := db.bookings ++
             [⟨db.next_booking_id, r, d, s, e, BookingStatus.confirmed⟩],
           next_booking_id := db.next_booking_id + 1 }) := by
  obtain ⟨rm, hrm⟩ := hroom
  have h1 : ¬ (e ≤ s) := by omega
  have h2 : ¬ (d < today) := by omega
  have hnone : ((db.bookings.filter (fun x =>
      decide (x.room_id = r) && decide (x.booking_date = d) &&
      decide (x.status ≠ BookingStatus.cancelled))).find?
      (fun x => RoomBooking.conflicts_with
        ⟨db.next_booking_id, r, d, s, e, BookingStatus.confirmed⟩ x)) = none := by
    rw [List.find?_eq_none]
    intro x hx hcx
    rw [List.mem_filter] at hx
    have hxp := (RoomBooking.conflicts_with_iff _ _).mp hcx
    exact hno x hx.1 hxp.1.symm hxp.2.1.symm hxp.2.2.2.1
      ⟨hxp.2.2.2.2.1, hxp.2.2.2.2.2⟩
  simp only [book_room, hrm, if_neg h1, if_neg h2, hnone]

/-- C1: after any sequence of `book_room`, `create_class` and cancel
operations from a state satisfying the no-double-booking invariant (the empty
store in particular), every two bookings of the same room and date that are
both non-cancelled have non-overlapping half-open intervals; `book_room`
rejects an overlapping request with a `Conflict` naming a colliding window,
and accepts a request that merely touches existing bookings' endpoints. -/
theorem C1_room_no_double_booking :
    (∀ (db : DB) (ops : List AdminOp), noDoubleBooking db →
      noDoubleBooking (runAdminOps db ops)) ∧
    (∀ (db : DB) (today r d s e : Nat),
      (∃ rm, db.rooms.find? (fun x => decide (x.room_id = r)) = some rm) →
      s < e → today ≤ d →
      (∃ b ∈ db.bookings, b.room_id = r ∧ b.booking_date = d ∧
        b.status ≠ BookingStatus.cancelled ∧ s < b.end_time ∧ b.start_time < e) →
      ∃ c ∈ db.bookings, c.room_id = r ∧ c.booking_date = d ∧
        c.status ≠ BookingStatus.cancelled ∧ s < c.end_time ∧ c.start_time < e ∧
        book_room db today r d s e = (BookRoomResult.conflict c.start_time c.end_time, db)) ∧
    (∀ (db : DB) (today r d s e : Nat),
      (∃ rm, db.rooms.find? (fun x => decide (x.room_id = r)) = some rm) →
      s < e → today ≤ d →
      (∀ b ∈ db.bookings, b.room_id = r → b.booking_date = d →
        b.status ≠ BookingStatus.cancelled → ¬(s < b.end_time ∧ b.start_time < e)) →
      book_room db today r d s e =
        (BookRoomResult.ok db.next_booking_id,
         { db with
             bookings := db.bookings ++
               [⟨db.next_booking_id, r, d, s, e, BookingStatus.confirmed⟩],
             next_booking_id := db.next_booking_id + 1 })) :=
  ⟨fun db ops h => runAdminOps_preserves ops db h, book_room_rejects_overlap,
    book_room_accepts⟩

/-- C1 witness, the Studio A scenario: with 09:00–10:00 booked, requesting
09:30–10:30 is rejected with a conflict naming the 09:00–10:00 window, by the
rejection clause of C1 at the concrete state `dbStudio`. -/
theorem C1_room_no_double_booking_witness :
    book_room dbStudio 0 1 0 570 630 = (BookRoomResult.conflict 540 600, dbStudio) := by
  obtain ⟨c, hcmem, h1, h2, h3, h4, h5, heq⟩ :=
    C1_room_no_double_booking.2.1 dbStudio 0 1 0 570 630 ⟨⟨1, 30⟩, by decide⟩
      (by decide) (by decide)
      ⟨⟨0, 1, 0, 540, 600, BookingStatus.confirmed⟩, by decide, rfl, rfl, by decide,
        by decide, by decide⟩
  have hc : c = ⟨0, 1, 0, 540, 600, BookingStatus.confirmed⟩ := by
    simpa [dbStudio] using hcmem
  subst hc
  exact heq

/-- C8 counterexample: with trainer 1 and room 1 present, free capacity,
positive duration and no bookings, a class scheduled exactly at the current
time (`scheduled_time = now = 1000`) is accepted — the Python guard is
`scheduled_time < datetime.now()`, so the boundary case is not rejected with
`PastSchedule` as the claim states. -/
theorem C8_counterexample_equal_now_accepted :
    (create_class dbFresh 1000 1 1 1000 60 none).1 = CreateClassResult.ok 0 0 ∧
    (create_class dbFresh 1000 1 1 1000 60 none).1 ≠ CreateClassResult.pastSchedule :=
  ⟨rfl, by decide⟩

/-- C8 amended: with an existing trainer and room, valid capacity and positive
duration, `create_class` fails `PastSchedule` exactly when the scheduled time
is strictly before the current time; the boundary case `scheduled_time = now`
is accepted past the temporal guard. -/
theorem C8_create_class_past_guard_strictly_before (db : DB) (now t r sch dur : Nat)
    (cap : Option Nat) (ht : db.trainers.contains t = true)
    (hr : ∃ rm, db.rooms.find? (fun x => decide (x.room_id = r)) = some rm ∧
      cap.getD rm.capacity ≤ rm.capacity)
    (hdur : dur ≠ 0) :
    ((create_class db now t r sch dur cap).1 = CreateClassResult.pastSchedule ↔ sch < now) := by
  obtain ⟨rm, hrm, hcap⟩ := hr
  have hcd : ¬ rm.capacity < cap.getD rm.capacity := by omega
  have hcontains : ¬ ¬ db.trainers.contains t = true := fun hh => hh ht
  by_cases hsch : sch < now
  · simp only [create_class, if_neg hcontains, hrm, if_neg hcd, if_neg hdur, if_pos hsch]
    simpa using hsch
  · simp only [create_class, if_neg hcontains, hrm, if_neg hcd, if_neg hdur, if_neg hsch]
    constructor
    · intro hres
      split at hres
      · exact absurd hres (by simp)
      · exact absurd hres (by simp)
    · intro hres
      exact absurd hres hsch

/-- C8 witness: a class scheduled strictly in the past (minute 1000 with the
clock at 2000) is rejected `PastSchedule`, by the amended guard
characterisation at a concrete input. -/
theorem C8_create_class_past_guard_witness :
    (create_class dbFresh 2000 1 1 1000 60 none).1 = CreateClassResult.pastSchedule :=
  (C8_create_class_past_guard_strictly_before dbFresh 2000 1 1 1000 60 none rfl
    ⟨⟨1, 10⟩, by decide, by decide⟩ (by decide)).mpr (by decide)

/-- C9: a `create_class` request whose window crosses midnight into the next
day is never rejected for that reason — when it succeeds, the linked confirmed
`RoomBooking` is persisted with the wrapped end time-of-day strictly earlier
than its start time; that booking conflicts with no booking present at
creation time under the half-open overlap test, and `is_room_available`
answers for any query window starting at or after the class start exactly as
it did without the new booking, so the room still appears available during the
class. -/
theorem C9_create_class_midnight_wrap (db : DB) (now t r sch dur : Nat) (cap : Option Nat)
    (hcross : 1440 ≤ sch % 1440 + dur) (hdur : dur < 1440)
    (hok : ∃ cid bid, (create_class db now t r sch dur cap).1 = CreateClassResult.ok cid bid) :
    ((create_class db now t r sch dur cap).2.bookings =
        db.bookings ++ [⟨db.next_booking_id, r, sch / 1440, sch % 1440,
          (sch + dur) % 1440, BookingStatus.confirmed⟩] ∧
      (sch + dur) % 1440 < sch % 1440) ∧
    (∀ b ∈ db.bookings, RoomBooking.conflicts_with
        ⟨db.next_booking_id, r, sch / 1440, sch % 1440, (sch + dur) % 1440,
          BookingStatus.confirmed⟩ b = false) ∧
    (∀ qs qe : Nat, sch % 1440 ≤ qs →
      is_room_available (create_class db now t r sch dur cap).2 r (sch / 1440) qs qe =
        is_room_available db r (sch / 1440) qs qe) := by
  have hwrap : (sch + dur) % 1440 < sch % 1440 := by omega
  obtain ⟨cid, bid, hok⟩ := hok
  unfold create_class at hok
  split at hok
  · simp at hok
  · rename_i hcontains
    split at hok
    · simp at hok
    · rename_i rm hrm
      split at hok
      · simp at hok
      · rename_i hcd
        split at hok
        · simp at hok
        · rename_i hdur0
          split at hok
          · simp at hok
          · rename_i hsch
            split at hok
            · simp at hok
            · rename_i havail
              rw [not_not] at havail
              have hred : create_class db now t r sch dur cap =
                  (CreateClassResult.ok db.next_class_id db.next_booking_id,
                   { db with
                       classes := db.classes ++
                         [⟨db.next_class_id, t, r, sch, dur, cap.getD rm.capacity,
                           ClassStatus.scheduled⟩],
                       bookings := db.bookings ++
                         [⟨db.next_booking_id, r, sch / 1440, sch % 1440,
                           (sch + dur) % 1440, BookingStatus.confirmed⟩],
                       next_class_id := db.next_class_id + 1,
                       next_booking_id := db.next_booking_id + 1 }) := by
                simp only [create_class, if_neg hcontains, hrm, if_neg hcd, if_neg hdur0,
                  if_neg hsch, if_neg (not_not_intro havail)]
              rw [hred]
              refine ⟨⟨rfl, hwrap⟩, ?_, ?_⟩
              · intro b hb
                rw [← Bool.not_eq_true]
                intro hc
                obtain ⟨hbr, hbd, _, hbs, ho1, ho2⟩ :=
                  (RoomBooking.conflicts_with_iff _ _).mp hc
                have hbr2 : b.room_id = r := hbr.symm
                have hbd2 : b.booking_date = sch / 1440 := hbd.symm
                have ho12 : sch % 1440 < b.end_time := ho1
                have ho22 : b.start_time < (sch + dur) % 1440 := ho2
                have hmem : b ∈ db.bookings.filter (fun x =>
                    decide (x.room_id = r) && decide (x.booking_date = sch / 1440) &&
                    decide (x.status ≠ BookingStatus.cancelled)) :=
                  List.mem_filter.mpr ⟨hb, by simp [hbr2, hbd2, hbs]⟩
                have hall := List.all_eq_true.mp havail b hmem
                simp only [Bool.not_eq_true', Bool.and_eq_false_iff,
                  decide_eq_false_iff_not, not_lt] at hall
                rcases hall with h' | h' <;> omega
              · intro qs qe hqs
                have hq : ¬ (qs < (sch + dur) % 1440) := by omega
                simp [is_room_available, List.filter_append, List.all_append, hq]

/-- C9 witness: a class at 23:00 (minute 1380 of day 0) lasting 120 minutes is
accepted and its linked booking is persisted with wrapped end 01:00 (60),
strictly earlier than its start, by the midnight-wrap theorem at `dbFresh`. -/
theorem C9_create_class_midnight_wrap_witness :
    (create_class dbFresh 0 1 1 1380 120 none).2.bookings =
      dbFresh.bookings ++ [⟨0, 1, 0, 1380, 60, BookingStatus.confirmed⟩] ∧ 60 < 1380 :=
  (C9_create_class_midnight_wrap dbFresh 0 1 1 1380 120 none (by decide) (by decide)
    ⟨0, 0, rfl⟩).1

/-- C2: re-registering after a cancelled registration is blocked.  In
`dbRereg` member 1's only registration for the scheduled, future,
under-capacity class 1 is cancelled, and no PT session conflicts; the
status-filtered duplicate check and all other guards pass, yet the insert
violates `uq_member_class_registration` — the cancelled row retained by soft
delete shares (member_id, class_id) — and the `IntegrityError` handler returns
the already-registered failure with the store unchanged, where the claim (and
§8 of the spec) requires success. -/
theorem C2_cancelled_registration_still_blocks :
    register_for_class dbRereg 0 1 1 = (RegisterResult.alreadyRegistered, dbRereg) := rfl

/-- C3 counterexample: cancelling the already-cancelled room booking 1 of
`dbCancelled` returns success, not an already-cancelled failure —
`cancel_room_booking` has no already-cancelled guard (the state is unchanged
only because re-setting the status to cancelled is value-identical). -/
theorem C3_counterexample_room_cancel_reports_success :
    cancel_room_booking dbCancelled 1 = (CancelBookingResult.ok, dbCancelled) := rfl

/-- Re-cancelling the first matching booking that is already cancelled leaves
the list unchanged. -/
theorem cancelFirstBooking_of_cancelled {l : List RoomBooking} {bid : Nat} {b : RoomBooking}
    (hfind : l.find? (fun x => decide (x.booking_id = bid)) = some b)
    (hb : b.status = BookingStatus.cancelled) :
    cancelFirstBooking l bid = l := by
  induction l with
  | nil => simp at hfind
  | cons a as ih =>
    unfold cancelFirstBooking
    by_cases ha : a.booking_id = bid
    · rw [if_pos ha]
      rw [List.find?_cons_of_pos _ (by simp [ha])] at hfind
      have hab : a = b := Option.some.inj hfind
      subst hab
      have hstat : ({ a with status := BookingStatus.cancelled } : RoomBooking) = a := by
        cases a
        simp only at hb
        rw [hb]
      rw [hstat]
    · rw [if_neg ha]
      rw [List.find?_cons_of_neg _ (by simp [ha])] at hfind
      rw [ih hfind]

/-- C3 amended: cancelling an already-cancelled PT session or class
registration fails with the already-cancelled error and leaves the store
unchanged; cancelling an already-cancelled room booking, by contrast, reports
success — `cancel_room_booking` re-sets the status unconditionally, which on
an already-cancelled record is a value-identical write, so the store is still
unchanged but no violation is reported. -/
theorem C3_cancel_idempotence :
    (∀ (db : DB) (now m sid : Nat) (s : PersonalTrainingSession),
      db.sessions.find? (fun x =>
        decide (x.session_id = sid) && decide (x.member_id = m)) = some s →
      s.status = SessionStatus.cancelled →
      cancel_pt_session db now m sid = (CancelSessionResult.alreadyCancelled, db)) ∧
    (∀ (db : DB) (now m rid : Nat) (rg : ClassRegistration),
      db.registrations.find? (fun x =>
        decide (x.registration_id = rid) && decide (x.member_id = m)) = some rg →
      rg.status = RegistrationStatus.cancelled →
      cancel_class_registration db now m rid = (CancelRegResult.alreadyCancelled, db)) ∧
    (∀ (db : DB) (bid : Nat) (b : RoomBooking),
      db.bookings.find? (fun x => decide (x.booking_id = bid)) = some b →
      b.status = BookingStatus.cancelled →
      cancel_room_booking db bid = (CancelBookingResult.ok, db)) := by
  refine ⟨?_, ?_, ?_⟩
  · intro db now m sid s hfind hst
    simp only [cancel_pt_session, hfind, if_pos hst]
  · intro db now m rid rg hfind hst
    simp only [cancel_class_registration, hfind, if_pos hst]
  · intro db bid b hfind hst
    simp only [cancel_room_booking, hfind, cancelFirstBooking_of_cancelled hfind hst]

/-- C3 witness: cancelling the already-cancelled PT session 1 of `dbCancelled`
reports the already-cancelled failure and leaves the store unchanged, by the
amended idempotence theorem at a concrete input. -/
theorem C3_cancel_idempotence_witness :
    cancel_pt_session dbCancelled 0 1 1 =
      (CancelSessionResult.alreadyCancelled, dbCancelled) :=
  C3_cancel_idempotence.1 dbCancelled 0 1 1
    ⟨1, 1, 1, none, 9000, 60, SessionStatus.cancelled⟩ (by decide) rfl

/-- The trainer-conflict query of the PT booker finds a hit iff some session
of that trainer is scheduled with start in `[sch, sch + dur)`. -/
theorem sessions_any_trainer_iff (db : DB) (t sch dur : Nat) :
    (db.sessions.any (fun s =>
      decide (s.trainer_id = t) && decide (s.status = SessionStatus.scheduled) &&
      decide (s.scheduled_time < sch + dur) && decide (sch ≤ s.scheduled_time)) = true) ↔
    ∃ s ∈ db.sessions, s.trainer_id = t ∧ s.status = SessionStatus.scheduled ∧
      sch ≤ s.scheduled_time ∧ s.scheduled_time < sch + dur := by
  rw [List.any_eq_true]
  constructor
  · rintro ⟨s, hs, hp⟩
    simp only [Bool.and_eq_true, decide_eq_true_eq] at hp
    exact ⟨s, hs, hp.1.1.1, hp.1.1.2, hp.2, hp.1.2⟩
  · rintro ⟨s, hs, h1, h2, h3, h4⟩
    exact ⟨s, hs, by simp [h1, h2, h3, h4]⟩

/-- The member-conflict query of the PT booker finds a hit iff some session of
that member is scheduled with start in `[sch, sch + dur)`. -/
theorem sessions_any_member_iff (db : DB) (m sch dur : Nat) :
    (db.sessions.any (fun s =>
      decide (s.member_id = m) && decide (s.status = SessionStatus.scheduled) &&
      decide (s.scheduled_time < sch + dur) && decide (sch ≤ s.scheduled_time)) = true) ↔
    ∃ s ∈ db.sessions, s.member_id = m ∧ s.status = SessionStatus.scheduled ∧
      sch ≤ s.scheduled_time ∧ s.scheduled_time < sch + dur := by
  rw [List.any_eq_true]
  constructor
  · rintro ⟨s, hs, hp⟩
    simp only [Bool.and_eq_true, decide_eq_true_eq] at hp
    exact ⟨s, hs, hp.1.1.1, hp.1.1.2, hp.2, hp.1.2⟩
  · rintro ⟨s, hs, h1, h2, h3, h4⟩
    exact ⟨s, hs, by simp [h1, h2, h3, h4]⟩

/-- The trainer-availability query finds a window iff some window of that
trainer on the session's weekday contains the start and the (wrapped) end
time-of-day. -/
theorem availabilities_any_iff (db : DB) (t sch dur : Nat) :
    (db.availabilities.any (fun a =>
      decide (a.trainer_id = t) && decide (a.day_of_week = sch / 1440 % 7) &&
      decide (a.start_time ≤ sch % 1440) &&
      decide ((sch + dur) % 1440 ≤ a.end_time)) = true) ↔
    ∃ a ∈ db.availabilities, a.trainer_id = t ∧ a.day_of_week = sch / 1440 % 7 ∧
      a.start_time ≤ sch % 1440 ∧ (sch + dur) % 1440 ≤ a.end_time := by
  rw [List.any_eq_true]
  constructor
  · rintro ⟨a, ha, hp⟩
    simp only [Bool.and_eq_true, decide_eq_true_eq] at hp
    exact ⟨a, ha, hp.1.1.1, hp.1.1.2, hp.1.2, hp.2⟩
  · rintro ⟨a, ha, h1, h2, h3, h4⟩
    exact ⟨a, ha, by simp [h1, h2, h3, h4]⟩

/-- C5: with member and trainer present, a future time and an availability
window found, the PT booker fails `TrainerConflict` exactly when some
scheduled session of the trainer starts in `[sch, sch + dur)`, and
`MemberConflict` exactly when no such trainer hit exists and some scheduled
session of the member starts in that window; with no room attached it succeeds
exactly when neither start-containment test hits, so an existing session
beginning strictly before `sch` never causes rejection, whatever it overlaps. -/
theorem C5_pt_conflict_start_containment_only (db : DB) (now m t sch dur : Nat)
    (room : Option Nat) (hm : db.members.contains m = true)
    (ht : db.trainers.contains t = true) (hfut : now < sch)
    (hav : db.availabilities.any (fun a =>
      decide (a.trainer_id = t) && decide (a.day_of_week = sch / 1440 % 7) &&
      decide (a.start_time ≤ sch % 1440) &&
      decide ((sch + dur) % 1440 ≤ a.end_time)) = true) :
    ((book_personal_training_session db now m t sch dur room).1 =
        PTBookResult.trainerConflict ↔
      ∃ s ∈ db.sessions, s.trainer_id = t ∧ s.status = SessionStatus.scheduled ∧
        sch ≤ s.scheduled_time ∧ s.scheduled_time < sch + dur) ∧
    ((book_personal_training_session db now m t sch dur room).1 =
        PTBookResult.memberConflict ↔
      (¬ (∃ s ∈ db.sessions, s.trainer_id = t ∧ s.status = SessionStatus.scheduled ∧
          sch ≤ s.scheduled_time ∧ s.scheduled_time < sch + dur) ∧
        ∃ s ∈ db.sessions, s.member_id = m ∧ s.status = SessionStatus.scheduled ∧
          sch ≤ s.scheduled_time ∧ s.scheduled_time < sch + dur)) ∧
    (room = none →
      ((book_personal_training_session db now m t sch dur room).1 =
          PTBookResult.ok db.next_session_id ↔
        (¬ (∃ s ∈ db.sessions, s.trainer_id = t ∧ s.status = SessionStatus.scheduled ∧
            sch ≤ s.scheduled_time ∧ s.scheduled_time < sch + dur) ∧
         ¬ (∃ s ∈ db.sessions, s.member_id = m ∧ s.status = SessionStatus.scheduled ∧
            sch ≤ s.scheduled_time ∧ s.scheduled_time < sch + dur)))) := by
  have hnow : ¬ sch ≤ now := by omega
  simp only [book_personal_training_session, if_neg (not_not_intro hm),
    if_neg (not_not_intro ht), if_neg hnow, if_neg (not_not_intro hav)]
  by_cases hTC : (db.sessions.any (fun s =>
      decide (s.trainer_id = t) && decide (s.status = SessionStatus.scheduled) &&
      decide (s.scheduled_time < sch + dur) && decide (sch ≤ s.scheduled_time)) = true)
  · rw [if_pos hTC]
    refine ⟨⟨fun _ => (sessions_any_trainer_iff db t sch dur).mp hTC, fun _ => rfl⟩,
      ⟨fun h => absurd h (by simp),
        fun h => absurd ((sessions_any_trainer_iff db t sch dur).mp hTC) h.1⟩,
      fun _ => ⟨fun h => absurd h (by simp),
        fun h => absurd ((sessions_any_trainer_iff db t sch dur).mp hTC) h.1⟩⟩
  · rw [if_neg hTC]
    by_cases hMC : (db.sessions.any (fun s =>
        decide (s.member_id = m) && decide (s.status = SessionStatus.scheduled) &&
        decide (s.scheduled_time < sch + dur) && decide (sch ≤ s.scheduled_time)) = true)
    · rw [if_pos hMC]
      refine ⟨⟨fun h => absurd h (by simp),
          fun h => absurd ((sessions_any_trainer_iff db t sch dur).mpr h) hTC⟩,
        ⟨fun _ => ⟨fun hex => hTC ((sessions_any_trainer_iff db t sch dur).mpr hex),
          (sessions_any_member_iff db m sch dur).mp hMC⟩, fun _ => rfl⟩,
        fun _ => ⟨fun h => absurd h (by simp),
          fun h => absurd ((sessions_any_member_iff db m sch dur).mp hMC) h.2⟩⟩
    · rw [if_neg hMC]
      refine ⟨?_, ?_, ?_⟩
      · constructor
        · intro h
          split at h <;> simp at h
        · intro hex
          exact absurd ((sessions_any_trainer_iff db t sch dur).mpr hex) hTC
      · constructor
        · intro h
          split at h <;> simp at h
        · intro h
          exact absurd ((sessions_any_member_iff db m sch dur).mpr h.2) hMC
      · intro hroom
        subst hroom
        constructor
        · intro _
          exact ⟨fun hex => hTC ((sessions_any_trainer_iff db t sch dur).mpr hex),
            fun hex => hMC ((sessions_any_member_iff db m sch dur).mpr hex)⟩
        · intro _
          rfl

/-- C5 witness: trainer 1 has a scheduled session 09:00–10:00 of day 6 (start
minute 9000); booking member 1 with the same trainer at minute 9030 for 60
minutes overlaps it but the existing start does not lie in [9030, 9090), so
the booking succeeds, by the start-containment characterisation at
`dbStartOnly`. -/
theorem C5_pt_conflict_start_containment_only_witness :
    (book_personal_training_session dbStartOnly 0 1 1 9030 60 none).1 =
      PTBookResult.ok 2 :=
  ((C5_pt_conflict_start_containment_only dbStartOnly 0 1 1 9030 60 none rfl rfl
    (by decide) (by decide)).2.2 rfl).mpr ⟨by decide, by decide⟩

/-- C6: with member and trainer present and a future time, the PT booker fails
`TrainerUnavailable` exactly when no availability window of the trainer for
the session's weekday contains the session interval (window.start ≤ start and
window.end ≥ end time-of-day). -/
theorem C6_pt_availability_containment (db : DB) (now m t sch dur : Nat)
    (room : Option Nat) (hm : db.members.contains m = true)
    (ht : db.trainers.contains t = true) (hfut : now < sch) :
    ((book_personal_training_session db now m t sch dur room).1 =
        PTBookResult.trainerUnavailable ↔
      ¬ ∃ a ∈ db.availabilities, a.trainer_id = t ∧ a.day_of_week = sch / 1440 % 7 ∧
        a.start_time ≤ sch % 1440 ∧ (sch + dur) % 1440 ≤ a.end_time) := by
  have hnow : ¬ sch ≤ now := by omega
  simp only [book_personal_training_session, if_neg (not_not_intro hm),
    if_neg (not_not_intro ht), if_neg hnow]
  by_cases hav : (db.availabilities.any (fun a =>
      decide (a.trainer_id = t) && decide (a.day_of_week = sch / 1440 % 7) &&
      decide (a.start_time ≤ sch % 1440) &&
      decide ((sch + dur) % 1440 ≤ a.end_time)) = true)
  · rw [if_neg (not_not_intro hav)]
    constructor
    · intro h
      split at h
      · simp at h
      · split at h
        · simp at h
        · split at h
          · simp at h
          · simp at h
    · intro hneg
      exact absurd ((availabilities_any_iff db t sch dur).mp hav) hneg
  · rw [if_pos hav]
    exact iff_of_true rfl (fun hex => hav ((availabilities_any_iff db t sch dur).mpr hex))

/-- C6 witness, the Monday scenario: trainer 1 is available Monday 09:00–12:00
and a Monday 11:30 session of 60 minutes (ending 12:30) is rejected
`TrainerUnavailable` even though its start lies inside the window, by the
containment characterisation at `dbMonday`. -/
theorem C6_pt_availability_containment_witness :
    (book_personal_training_session dbMonday 0 1 1 10770 60 none).1 =
      PTBookResult.trainerUnavailable :=
  (C6_pt_availability_containment dbMonday 0 1 1 10770 60 none rfl rfl
    (by decide)).mpr (by decide)

/-- C7 counterexample: member 1's scheduled session 1 in `dbResched` is
rescheduled to minute 40 with the clock at 50; the nested booking fails
`PastSchedule`, and the returned store is `dbResched` itself — the old session
is still scheduled, not cancelled, because the else-branch `session.rollback()`
discards the uncommitted cancellation, contrary to the claim that the member
is left with neither session. -/
theorem C7_counterexample_failed_reschedule_keeps_old :
    reschedule_pt_session dbResched 50 1 1 40 =
      (RescheduleResult.bookFailed PTBookResult.pastSchedule, dbResched) := rfl

/-- C7 amended: for every scheduled PT session, when the re-booking attempted
by `reschedule_pt_session` fails — and with autoflush disabled its conflict
queries run against the unflushed store, where the old session is still
scheduled, so a new window containing the old start fails `TrainerConflict`
off the old session itself — the booking-failure result is returned and the
whole store is rolled back to its pre-call state: `session.rollback()`
discards the uncommitted cancellation, so the old session remains scheduled
rather than ending cancelled. -/
theorem C7_reschedule_rolls_back_on_failure (db : DB) (now m sid newt : Nat)
    (s : PersonalTrainingSession)
    (hfind : db.sessions.find? (fun x =>
      decide (x.session_id = sid) && decide (x.member_id = m)) = some s)
    (hsch : s.status = SessionStatus.scheduled)
    (hfail : PTBookResult.isOk (book_personal_training_session db now m s.trainer_id
      newt s.duration_minutes s.room_id).1 = false) :
    reschedule_pt_session db now m sid newt =
      (RescheduleResult.bookFailed (book_personal_training_session db now m s.trainer_id
        newt s.duration_minutes s.room_id).1, db) := by
  simp only [reschedule_pt_session, hfind, if_neg (not_not_intro hsch)]
  rcases hb : book_personal_training_session db now m s.trainer_id newt
      s.duration_minutes s.room_id with ⟨res, db2⟩
  rw [hb] at hfail
  cases res <;> first
    | rfl
    | simp [PTBookResult.isOk] at hfail

/-- C7 witness: rescheduling session 1 (start 100, duration 60) to minute 90
puts the old session's start inside the new window [90, 150); with autoflush
disabled the nested booking still sees it scheduled and fails
`TrainerConflict`, and the store comes back unchanged with the old session
kept — the amended rollback theorem at a concrete input. -/
theorem C7_reschedule_rolls_back_on_failure_witness :
    reschedule_pt_session dbResched 50 1 1 90 =
      (RescheduleResult.bookFailed PTBookResult.trainerConflict, dbResched) :=
  C7_reschedule_rolls_back_on_failure dbResched 50 1 1 90
    ⟨1, 1, 1, none, 100, 60, SessionStatus.scheduled⟩ (by decide) rfl (by decide)
